import Mathlib

/-!
Verification of the CashFusion Qt plugin orchestration layer
(src/plugins/fusion/qt.py) against its natural-language specification.

The definitions below are a shallow embedding of the plugin-boundary
operations: fusion-handle statuses, the password cache queries
(Plugin.get_cached_pw, Plugin.cache_pw), autofuse lifecycle reactions
(Plugin.on_new_password, FusionButton.toggle_autofuse), settings edits
that stop fusions (WalletSettingsDialog.edited_queued_autofuse,
WalletSettingsDialog.chose_self_fuse), shutdown
(Plugin.on_close_window) and server-status publication
(Plugin.notify_server_status).

Operations of the external fusion engine (Fusion.stop semantics,
Fusion.join, enable_autofusing, disable_autofusing, remove_wallet) live
in fusion.py / plugin.py which are absent from the provided source;
those are modelled from the specification and are marked as such in
their doc comments.
-/

/-- Status of one fusion handle, as displayed by the plugin and described
by the spec: waiting, running, stopping, stopped, complete, failed. -/
inductive FStatus where
  | waiting
  | running
  | stopping
  | stopped
  | complete
  | failed
deriving DecidableEq

/-- A status is terminal when the round is over: stopped, complete or failed. -/
def FStatus.isTerminal : FStatus → Bool
  | FStatus.stopped => true
  | FStatus.complete => true
  | FStatus.failed => true
  | _ => false

/-- One fusion handle of a wallet. `isAuto` records membership in
`wallet._fusions_auto` (background autofusions) as opposed to only
`wallet._fusions` (all fusions, including manually started ones). -/
structure Fusion where
  status : FStatus
  isAuto : Bool
deriving DecidableEq

/-- Modelled from the spec: `Fusion.stop` lives in fusion.py, absent from
the provided source. Per the spec a stop request transitions a `waiting`
handle to `stopped` immediately and only flags a `running` handle as
`stopping`; the `not_if_running` keyword (visible at the call sites in
qt.py) exempts running rounds entirely. Other statuses are unaffected. -/
def Fusion.stop (notIfRunning : Bool) (f : Fusion) : Fusion :=
  match f.status with
  | FStatus.waiting => { f with status := FStatus.stopped }
  | FStatus.running =>
      if notIfRunning then f else { f with status := FStatus.stopping }
  | _ => f

/-- Modelled from the spec: the per-handle status machine of the external
round engine (fusion.py, absent from the provided source):
waiting to running, running to complete or failed, and a stopping round
finishes its current step and then stops. -/
inductive StatusStep : FStatus → FStatus → Prop
  | round_starts : StatusStep FStatus.waiting FStatus.running
  | round_completes : StatusStep FStatus.running FStatus.complete
  | round_fails : StatusStep FStatus.running FStatus.failed
  | stop_honored : StatusStep FStatus.stopping FStatus.stopped

/-- The state of one wallet as seen by the plugin: its password (none
when the wallet is unencrypted), whether background autofusing is
enabled, the two persisted fusion settings used by the claims, and its
set of fusion handles. -/
structure WalletState where
  password : Option String
  autofusing : Bool
  queued_autofuse : Nat
  self_fuse_players : Nat
  fusions : List Fusion
deriving DecidableEq

/-- `wallet.has_password()` of the wallet library: the wallet is
password protected iff it has a password set. -/
def WalletState.has_password (w : WalletState) : Bool := w.password.isSome

/-- `wallet.check_password(pw)` of the wallet library, returned as a
Bool: `false` models the InvalidPassword exception. An unencrypted
wallet accepts its (absent) password. -/
def WalletState.check_password (w : WalletState) (pw : Option String) : Bool :=
  match w.password, pw with
  | none, _ => true
  | some real, some given => real == given
  | some _, none => false

/-- The slice of an ElectrumWindow the plugin uses: the gui object's
per-wallet cached password (`gui_object.get_cached_password` /
`gui_object.cache_password`). -/
structure ElectrumWindow where
  cached_password : Option String
deriving DecidableEq

/-- `Plugin.get_cached_pw(wallet)` from qt.py: returns `(False, None)`
for a wallet with no password; raises RuntimeError (modelled as
`Except.error`) when the wallet lacks a live window; otherwise
re-validates any cached password with `wallet.check_password` and
replaces it by `none` when validation fails. -/
def get_cached_pw (w : WalletState) (window : Option ElectrumWindow) :
    Except String (Bool × Option String) :=
  if w.has_password = false then Except.ok (false, none)
  else
    match window with
    | none => Except.error "wallet lacks a valid ElectrumWindow instance"
    | some win =>
      match win.cached_password with
      | none => Except.ok (true, none)
      | some pw =>
        if w.check_password (some pw) then Except.ok (true, some pw)
        else Except.ok (true, none)

/-- `Plugin.cache_pw(wallet, password)` from qt.py: dereferences the
wallet's weak window; if the window is gone the function simply returns,
otherwise it stores the password in the gui object's cache. The function
has no raising path. -/
def cache_pw (weak_window : Option ElectrumWindow) (password : String) :
    Option ElectrumWindow :=
  match weak_window with
  | some win => some { win with cached_password := some password }
  | none => none

/-- Modelled from the spec: `enable_autofusing` lives in the plugin base
class (plugin.py), absent from the provided source. Per the spec's
AutofuseRegistry.enable contract it requires the password to satisfy the
wallet's credential check, failing with InvalidPassword (modelled as
`Except.error`) otherwise, and on success marks autofuse enabled. -/
def enable_autofusing (w : WalletState) (password : Option String) :
    Except Unit WalletState :=
  if w.check_password password then Except.ok { w with autofusing := true }
  else Except.error ()

/-- Modelled from the spec: `disable_autofusing` lives in the plugin base
class (plugin.py), absent from the provided source. Per the spec's
AutofuseRegistry.disable contract it marks autofuse disabled and returns
the handles of currently running and queued rounds for the wallet,
without itself stopping any in-flight round. -/
def disable_autofusing (w : WalletState) : WalletState × List Fusion :=
  ({ w with autofusing := false },
   w.fusions.filter
     (fun f => f.status == FStatus.waiting || f.status == FStatus.running))

/-- `Plugin.on_new_password(window, old, new)` from qt.py: when the
wallet is autofusing, try `enable_autofusing` with the new password;
on InvalidPassword fall back to `disable_autofusing` and report a
diagnostic. The second component is the diagnostic printed via
`print_error`. -/
def on_new_password (w : WalletState) (_old new : Option String) :
    WalletState × Option String :=
  if w.autofusing then
    match enable_autofusing w new with
    | Except.ok w2 => (w2, some "updated autofusion password")
    | Except.error _ =>
        ((disable_autofusing w).1,
         some "disabled autofusion due to incorrect password - BUG")
  else (w, none)

/-- The disable branch of `FusionButton.toggle_autofuse` from qt.py:
call `disable_autofusing`; when it returned in-flight handles, ask the
user whether to signal them to stop, and only on a yes answer request
`stop` on each returned handle. -/
def toggle_autofuse_disable (w : WalletState) (userSaysStop : Bool) : WalletState :=
  let p := disable_autofusing w
  if p.2.isEmpty then p.1
  else if userSaysStop then
    { p.1 with fusions := p.1.fusions.map (fun f =>
        if f.status == FStatus.waiting || f.status == FStatus.running
        then Fusion.stop false f else f) }
  else p.1

/-- Modelled from the spec: `remove_wallet` lives in the plugin base
class (plugin.py), absent from the provided source. It deregisters the
wallet from the plugin and returns the wallet's active fusion handles,
which on_close_window then stops and joins. -/
def remove_wallet (w : WalletState) : List Fusion := w.fusions

/-- Modelled from the spec: `Fusion.join` lives in fusion.py, absent
from the provided source; per the spec it blocks, with no timeout, until
the handle's status is terminal. The external engine's concurrent
progress is modelled by the `step` function; `join_wait` returns the
handle once its status is terminal and `none` while the join is still
blocked after `fuel` observations. -/
def join_wait (step : Fusion → Fusion) : Nat → Fusion → Option Fusion
  | 0, f => if f.status.isTerminal then some f else none
  | fuel + 1, f =>
      if f.status.isTerminal then some f else join_wait step fuel (step f)

/-- Sequential join of a list of handles, mirroring the
`for f in fusions: f.join()` loop of the shutdown task in qt.py. The
result is `none` when any join is still blocked. -/
def join_all (step : Fusion → Fusion) (fuel : Nat) : List Fusion → Option (List Fusion)
  | [] => some []
  | f :: rest =>
    match join_wait step fuel f, join_all step fuel rest with
    | some g, some gs => some (g :: gs)
    | _, _ => none

/-- `Plugin.on_close_window(window)` from qt.py: remove the wallet,
return early when it had no fusions, otherwise request stop on every
handle and then block joining each one. The returned value is the list
of handles as observed when every join has returned, `none` while the
shutdown is still waiting. -/
def on_close_window (step : Fusion → Fusion) (fuel : Nat) (w : WalletState) :
    Option (List Fusion) :=
  if (remove_wallet w).isEmpty then some []
  else join_all step fuel ((remove_wallet w).map (Fusion.stop false))

/-- A server status payload as published by the plugin:
`(server_ok, (summary, extra))`. -/
abbrev ServerStatus := Bool × String × String

/-- The initial `Plugin.last_server_status` value from qt.py. -/
def last_server_status_init : ServerStatus := (true, "Ok", "")

/-- `Plugin.notify_server_status(b, tup)` from qt.py: compare the new
payload with `last_server_status`; when different, record it and emit
the signal, otherwise emit nothing. Returns the new last value and the
emitted payload, if any. -/
def notify_server_status (last s : ServerStatus) : ServerStatus × Option ServerStatus :=
  if last ≠ s then (s, some s) else (last, none)

/-- Folds `notify_server_status` over a sequence of publications,
collecting the payloads actually emitted to subscribers. -/
def notify_all (last : ServerStatus) : List ServerStatus → List ServerStatus
  | [] => []
  | s :: rest =>
    match notify_server_status last s with
    | (last2, some e) => e :: notify_all last2 rest
    | (last2, none) => notify_all last2 rest

/-- `WalletSettingsDialog.edited_queued_autofuse` from qt.py: read the
previous stored limit, store the new one, and when the limit decreased
request a not-if-running stop on every background autofusion of the
wallet. -/
def edited_queued_autofuse (w : WalletState) (numfuse : Nat) : WalletState :=
  if w.queued_autofuse > numfuse then
    { w with queued_autofuse := numfuse,
             fusions := w.fusions.map
               (fun f => if f.isAuto then Fusion.stop true f else f) }
  else { w with queued_autofuse := numfuse }

/-- `WalletSettingsDialog.chose_self_fuse` from qt.py: store the chosen
self-fuse player count; when it differs from the previous value request
a not-if-running stop on every fusion of the wallet (all of
`wallet._fusions`, not only the background autofusions). -/
def chose_self_fuse (w : WalletState) (sel : Nat) : WalletState :=
  if w.self_fuse_players ≠ sel then
    { w with self_fuse_players := sel,
             fusions := w.fusions.map (Fusion.stop true) }
  else { w with self_fuse_players := sel }

/-- Boolean observation that a `get_cached_pw` result is a normal return
rather than a raised exception. -/
def isOkResult : Except String (Bool × Option String) → Bool
  | Except.ok _ => true
  | Except.error _ => false

/-- Observation of the boolean component of a normal `get_cached_pw`
return, `none` when the call raised. -/
def okFirst : Except String (Bool × Option String) → Option Bool
  | Except.ok r => some r.1
  | Except.error _ => none

namespace ProofHelpers

theorem join_wait_terminal (step : Fusion → Fusion) :
    ∀ (fuel : Nat) (f g : Fusion),
      join_wait step fuel f = some g → g.status.isTerminal = true := by
  intro fuel
  induction fuel with
  | zero =>
    intro f g h
    unfold join_wait at h
    split at h
    · next ht =>
      cases h
      exact ht
    · cases h
  | succ n ih =>
    intro f g h
    unfold join_wait at h
    split at h
    · next ht =>
      cases h
      exact ht
    · exact ih _ _ h

theorem join_all_terminal (step : Fusion → Fusion) (fuel : Nat) :
    ∀ (l gs : List Fusion),
      join_all step fuel l = some gs → ∀ g ∈ gs, g.status.isTerminal = true := by
  intro l
  induction l with
  | nil =>
    intro gs h g hg
    unfold join_all at h
    cases h
    cases hg
  | cons f rest ih =>
    intro gs h g hg
    unfold join_all at h
    split at h
    · next g0 gs0 h1 h2 =>
      cases h
      rcases List.mem_cons.mp hg with hg | hg
      · subst hg
        exact join_wait_terminal step fuel f g h1
      · exact ih gs0 h2 g hg
    · cases h

theorem notify_all_cons (last s : ServerStatus) (rest : List ServerStatus) :
    notify_all last (s :: rest) =
      if last = s then notify_all last rest else s :: notify_all s rest := by
  by_cases h : last = s
  · simp [notify_all, notify_server_status, h]
  · simp [notify_all, notify_server_status, h]

theorem notify_all_chain (l : List ServerStatus) :
    ∀ last, List.Chain' (fun a b => a ≠ b) (notify_all last l) ∧
      ∀ x, (notify_all last l).head? = some x → x ≠ last := by
  induction l with
  | nil =>
    intro last
    constructor
    · simp [notify_all]
    · intro x hx
      simp [notify_all] at hx
  | cons s rest ih =>
    intro last
    rw [notify_all_cons]
    by_cases h : last = s
    · rw [if_pos h]
      subst h
      exact ih last
    · rw [if_neg h]
      obtain ⟨hchain, hhead⟩ := ih s
      constructor
      · refine List.chain'_cons'.mpr ⟨?_, hchain⟩
        intro y hy
        exact (hhead y hy).symm
      · intro x hx
        rw [List.head?_cons, Option.some_inj] at hx
        subst hx
        intro he
        exact h he.symm

theorem stopped_reaches_only_stopped (s t : FStatus)
    (h : Relation.ReflTransGen StatusStep s t) (hs : s = FStatus.stopped) :
    t = FStatus.stopped := by
  induction h with
  | refl => exact hs
  | tail hab hbc ih =>
    subst ih
    cases hbc

end ProofHelpers

/-- Claim C1: `Plugin.get_cached_pw` returns `(false, none)` whenever the
wallet requires no password; and for a password-protected wallet with a
live window, a cached password is re-validated against the wallet's
current password before being returned, so a stale cached value is
replaced by `none` while a still-valid cached value is returned. -/
theorem claim_C1 (w : WalletState) (window : Option ElectrumWindow) :
    (w.has_password = false → get_cached_pw w window = Except.ok (false, none)) ∧
    (∀ win pw, w.has_password = true → window = some win →
      win.cached_password = some pw → w.check_password (some pw) = false →
      get_cached_pw w window = Except.ok (true, none)) ∧
    (∀ win pw, w.has_password = true → window = some win →
      win.cached_password = some pw → w.check_password (some pw) = true →
      get_cached_pw w window = Except.ok (true, some pw)) := by
  refine ⟨?_, ?_, ?_⟩
  · intro h
    simp [get_cached_pw, h]
  · intro win pw hpw hwin hcache hchk
    subst hwin
    simp [get_cached_pw, hpw, hcache, hchk]
  · intro win pw hpw hwin hcache hchk
    subst hwin
    simp [get_cached_pw, hpw, hcache, hchk]

/-- Witness for claim C1: a wallet whose password was externally changed
to pw2 while pw1 is still cached yields `(true, none)`. -/
theorem claim_C1_witness :
    get_cached_pw
      { password := some "pw2", autofusing := false, queued_autofuse := 1,
        self_fuse_players := 1, fusions := [] }
      (some { cached_password := some "pw1" }) = Except.ok (true, none) :=
  (claim_C1
    { password := some "pw2", autofusing := false, queued_autofuse := 1,
      self_fuse_players := 1, fusions := [] }
    (some { cached_password := some "pw1" })).2.1
    { cached_password := some "pw1" } "pw1" (by decide) rfl rfl (by decide)

/-- Claim C2: for a wallet with autofuse enabled, `Plugin.on_new_password`
re-enables autofusing with the new password when it is valid; when the
attempt fails with InvalidPassword, autofusing is disabled and a
diagnostic is reported, so autofuse is never left enabled with an
invalid credential. -/
theorem claim_C2 (w : WalletState) (old new : Option String)
    (h : w.autofusing = true) :
    (w.check_password new = true →
       (on_new_password w old new).1.autofusing = true ∧
       (on_new_password w old new).2 = some "updated autofusion password") ∧
    (w.check_password new = false →
       (on_new_password w old new).1.autofusing = false ∧
       (on_new_password w old new).2 =
         some "disabled autofusion due to incorrect password - BUG") ∧
    ((on_new_password w old new).1.autofusing = true →
       w.check_password new = true) := by
  refine ⟨?_, ?_, ?_⟩
  · intro hchk
    simp [on_new_password, enable_autofusing, h, hchk]
  · intro hchk
    simp [on_new_password, enable_autofusing, disable_autofusing, h, hchk]
  · intro hafter
    by_cases hchk : w.check_password new = true
    · exact hchk
    · exfalso
      rw [Bool.not_eq_true] at hchk
      have : (on_new_password w old new).1.autofusing = false := by
        simp [on_new_password, enable_autofusing, disable_autofusing, h, hchk]
      rw [hafter] at this
      cases this

/-- Witness for claim C2: a wallet autofusing whose password was changed
to a value failing the credential check ends up not autofusing. -/
theorem claim_C2_witness :
    (on_new_password
      { password := some "real", autofusing := true, queued_autofuse := 1,
        self_fuse_players := 1, fusions := [] }
      (some "old") (some "bad")).1.autofusing = false ∧
    (on_new_password
      { password := some "real", autofusing := true, queued_autofuse := 1,
        self_fuse_players := 1, fusions := [] }
      (some "old") (some "bad")).2 =
       some "disabled autofusion due to incorrect password - BUG" :=
  (claim_C2
    { password := some "real", autofusing := true, queued_autofuse := 1,
      self_fuse_players := 1, fusions := [] }
    (some "old") (some "bad") rfl).2.1 (by decide)

/-- Counterexample to claim C3 as stated: decreasing the stored queued
limit from 3 to 1 with two queued (waiting, not running) autofusions
stops both of them, not exactly K - M = 1 of them. -/
theorem claim_C3_counterexample :
    ((edited_queued_autofuse
        { password := none, autofusing := true, queued_autofuse := 3,
          self_fuse_players := 1,
          fusions := [{ status := FStatus.waiting, isAuto := true },
                      { status := FStatus.waiting, isAuto := true }] }
        1).fusions.filter (fun f => f.status == FStatus.stopped)).length = 2 ∧
    ¬ ((edited_queued_autofuse
        { password := none, autofusing := true, queued_autofuse := 3,
          self_fuse_players := 1,
          fusions := [{ status := FStatus.waiting, isAuto := true },
                      { status := FStatus.waiting, isAuto := true }] }
        1).fusions.filter (fun f => f.status == FStatus.stopped)).length = 2 - 1 := by
  decide

/-- Claim C3 as amended: a decrease of the queued-fusion limit requests a
not-if-running stop on every background autofusion of the wallet, so all
queued (waiting) autofusions are stopped, not exactly K - M of them;
running fusions are exempt from the stop and non-auto fusions are
untouched. -/
theorem claim_C3_amended (w : WalletState) (numfuse : Nat)
    (h : numfuse < w.queued_autofuse) :
    ((edited_queued_autofuse w numfuse).queued_autofuse = numfuse) ∧
    ((edited_queued_autofuse w numfuse).fusions =
       w.fusions.map (fun f => if f.isAuto then Fusion.stop true f else f)) ∧
    (∀ f : Fusion, f.isAuto = true → f.status = FStatus.waiting →
       (Fusion.stop true f).status = FStatus.stopped) ∧
    (∀ f : Fusion, f.status = FStatus.running → Fusion.stop true f = f) := by
  refine ⟨?_, ?_, ?_, ?_⟩
  · simp [edited_queued_autofuse, h]
  · simp [edited_queued_autofuse, h]
  · intro f _ hw
    simp [Fusion.stop, hw]
  · intro f hr
    simp [Fusion.stop, hr]

/-- Witness for claim C3 as amended: with previous limit 3 and new limit
1, the stored limit becomes 1. -/
theorem claim_C3_witness :
    (edited_queued_autofuse
      { password := none, autofusing := true, queued_autofuse := 3,
        self_fuse_players := 1,
        fusions := [{ status := FStatus.waiting, isAuto := true },
                    { status := FStatus.waiting, isAuto := true }] }
      1).queued_autofuse = 1 :=
  (claim_C3_amended
    { password := none, autofusing := true, queued_autofuse := 3,
      self_fuse_players := 1,
      fusions := [{ status := FStatus.waiting, isAuto := true },
                  { status := FStatus.waiting, isAuto := true }] }
    1 (by decide)).1

/-- Claim C4: `Plugin.on_close_window` first requests stop on every
handle of the wallet and then joins each one; whenever the shutdown
returns (the join is not still blocked), every observed handle has a
terminal status. -/
theorem claim_C4 (step : Fusion → Fusion) (fuel : Nat) (w : WalletState)
    (fs : List Fusion) (h : on_close_window step fuel w = some fs) :
    ∀ f ∈ fs, f.status.isTerminal = true := by
  unfold on_close_window at h
  split at h
  · cases h
    intro f hf
    cases hf
  · intro f hf
    exact ProofHelpers.join_all_terminal step fuel _ fs h f hf

/-- Witness for claim C4: a running fusion is flagged stopping at
shutdown, completes concurrently during the join, and the handle
observed after the join is terminal. -/
theorem claim_C4_witness :
    (Fusion.mk FStatus.complete false).status.isTerminal = true :=
  claim_C4
    (fun f => if f.status == FStatus.stopping
              then { f with status := FStatus.complete } else f)
    2
    { password := none, autofusing := false, queued_autofuse := 1,
      self_fuse_players := 1,
      fusions := [{ status := FStatus.running, isAuto := false }] }
    [{ status := FStatus.complete, isAuto := false }]
    (by decide)
    (Fusion.mk FStatus.complete false)
    (by decide)

/-- Claim C5: `Plugin.notify_server_status` suppresses a publication
whose payload equals the last published value and broadcasts a distinct
payload, so the sequence of emitted states never has two consecutive
identical elements. -/
theorem claim_C5 :
    (∀ last s : ServerStatus, last = s → notify_server_status last s = (last, none)) ∧
    (∀ last s : ServerStatus, last ≠ s → notify_server_status last s = (s, some s)) ∧
    (∀ (last : ServerStatus) (l : List ServerStatus),
       List.Chain' (fun a b => a ≠ b) (notify_all last l)) := by
  refine ⟨?_, ?_, ?_⟩
  · intro last s h
    simp [notify_server_status, h]
  · intro last s h
    simp [notify_server_status, h]
  · intro last l
    exact (ProofHelpers.notify_all_chain l last).1

/-- Witness for claim C5: a duplicate publication after a state change is
suppressed, leaving no two consecutive identical emitted states. -/
theorem claim_C5_witness :
    List.Chain' (fun a b => a ≠ b)
      (notify_all last_server_status_init
        [(false, "err", "down"), (false, "err", "down"), (true, "Ok", "")]) :=
  claim_C5.2.2 last_server_status_init
    [(false, "err", "down"), (false, "err", "down"), (true, "Ok", "")]

/-- Counterexample to claim C6 as stated: `Plugin.get_cached_pw` does
raise. For a password-protected wallet whose window is gone it raises
RuntimeError rather than returning a tuple. -/
theorem claim_C6_counterexample :
    get_cached_pw
      { password := some "a", autofusing := false, queued_autofuse := 1,
        self_fuse_players := 1, fusions := [] } none =
      Except.error "wallet lacks a valid ElectrumWindow instance" := rfl

/-- Claim C6 as amended: provided the wallet requires no password or its
window is alive, `Plugin.get_cached_pw` never raises; absence of a valid
password is signalled only by `none` in the password slot, and the
boolean equals whether the wallet is password protected. For a
password-protected wallet whose window is gone it raises RuntimeError. -/
theorem claim_C6_amended (w : WalletState) (window : Option ElectrumWindow)
    (h : w.has_password = false ∨ window ≠ none) :
    isOkResult (get_cached_pw w window) = true ∧
    okFirst (get_cached_pw w window) = some w.has_password := by
  by_cases hp : w.has_password = false
  · rw [hp]
    simp [get_cached_pw, hp, isOkResult, okFirst]
  · rw [Bool.not_eq_false] at hp
    rw [hp]
    cases window with
    | none =>
      rcases h with h | h
      · rw [hp] at h
        exact Bool.noConfusion h
      · exact absurd rfl h
    | some win =>
      cases hc : win.cached_password with
      | none => simp [get_cached_pw, hp, hc, isOkResult, okFirst]
      | some pw =>
        by_cases hchk : w.check_password (some pw) = true
        · simp [get_cached_pw, hp, hc, hchk, isOkResult, okFirst]
        · rw [Bool.not_eq_true] at hchk
          simp [get_cached_pw, hp, hc, hchk, isOkResult, okFirst]

/-- Witness for claim C6 as amended: a password-less wallet with no
window still gets a normal return whose boolean is false. -/
theorem claim_C6_witness :
    isOkResult (get_cached_pw
      { password := none, autofusing := false, queued_autofuse := 1,
        self_fuse_players := 1, fusions := [] } none) = true :=
  (claim_C6_amended
    { password := none, autofusing := false, queued_autofuse := 1,
      self_fuse_players := 1, fusions := [] } none (Or.inl rfl)).1

/-- Claim C7: `disable_autofusing` marks the wallet as not autofusing and
returns the handles of its currently running and queued rounds, while
leaving every fusion handle of the wallet unchanged; the cooperative
stop of those rounds in `FusionButton.toggle_autofuse` happens only on a
separate user decision, and with a negative answer the wallet state is
exactly the disabled state. -/
theorem claim_C7 (w : WalletState) :
    ((disable_autofusing w).1.autofusing = false) ∧
    ((disable_autofusing w).1.fusions = w.fusions) ∧
    ((disable_autofusing w).2 = w.fusions.filter
       (fun f => f.status == FStatus.waiting || f.status == FStatus.running)) ∧
    (toggle_autofuse_disable w false = (disable_autofusing w).1) := by
  refine ⟨rfl, rfl, rfl, ?_⟩
  simp [toggle_autofuse_disable]

/-- Claim C8: a stop request on a waiting handle transitions it to
stopped, from which the engine's status machine can never reach running;
a stop request on a running handle only flags it as stopping. -/
theorem claim_C8 :
    (∀ f : Fusion, f.status = FStatus.waiting →
       (Fusion.stop false f).status = FStatus.stopped) ∧
    (∀ s : FStatus, Relation.ReflTransGen StatusStep FStatus.stopped s →
       s ≠ FStatus.running) ∧
    (∀ f : Fusion, f.status = FStatus.running →
       (Fusion.stop false f).status = FStatus.stopping) := by
  refine ⟨?_, ?_, ?_⟩
  · intro f hw
    simp [Fusion.stop, hw]
  · intro s hreach
    have := ProofHelpers.stopped_reaches_only_stopped FStatus.stopped s hreach rfl
    subst this
    intro hc
    cases hc
  · intro f hr
    simp [Fusion.stop, hr]

/-- Witness for claim C8: stopping a concrete waiting handle yields
stopped, and stopping a concrete running handle yields stopping. -/
theorem claim_C8_witness :
    (Fusion.stop false { status := FStatus.waiting, isAuto := false }).status
      = FStatus.stopped ∧
    (Fusion.stop false { status := FStatus.running, isAuto := false }).status
      = FStatus.stopping :=
  ⟨claim_C8.1 { status := FStatus.waiting, isAuto := false } rfl,
   claim_C8.2.2 { status := FStatus.running, isAuto := false } rfl⟩

/-- Claim C9: `Plugin.cache_pw` on a wallet whose weak window reference
dereferences to nothing is a silent no-op: nothing is stored and no
error arises (the function is total and returns the unchanged state). -/
theorem claim_C9 (weak_window : Option ElectrumWindow) (password : String)
    (h : weak_window = none) :
    cache_pw weak_window password = weak_window := by
  subst h
  rfl

/-- Witness for claim C9: caching a concrete password with a dead window
is a no-op. -/
theorem claim_C9_witness : cache_pw none "secret" = none :=
  claim_C9 none "secret" rfl

/-- Claim C10: `WalletSettingsDialog.chose_self_fuse` with a value
different from the stored one requests a not-if-running stop on every
fusion of the wallet, manually started ones included, so running rounds
are exempt; with the same value no fusion is stopped. -/
theorem claim_C10 (w : WalletState) (sel : Nat) :
    (w.self_fuse_players ≠ sel →
       (chose_self_fuse w sel).fusions = w.fusions.map (Fusion.stop true)) ∧
    (w.self_fuse_players = sel → (chose_self_fuse w sel).fusions = w.fusions) ∧
    (∀ f : Fusion, f.status = FStatus.running → Fusion.stop true f = f) := by
  refine ⟨?_, ?_, ?_⟩
  · intro h
    simp [chose_self_fuse, h]
  · intro h
    simp [chose_self_fuse, h]
  · intro f hr
    simp [Fusion.stop, hr]

/-- Witness for claim C10: changing the self-fuse player count from 1 to
2 stops the wallet's waiting manual fusion as well. -/
theorem claim_C10_witness :
    (chose_self_fuse
      { password := none, autofusing := false, queued_autofuse := 1,
        self_fuse_players := 1,
        fusions := [{ status := FStatus.waiting, isAuto := false }] }
      2).fusions =
      [{ status := FStatus.waiting, isAuto := false }].map (Fusion.stop true) :=
  (claim_C10
    { password := none, autofusing := false, queued_autofuse := 1,
      self_fuse_players := 1,
      fusions := [{ status := FStatus.waiting, isAuto := false }] }
    2).1 (by decide)
